import Mathlib

/-!
Verification of the task-manager API slice: the Mongoose task/user models,
the JWT session extraction shared by the task routes, and the auth and task
HTTP handlers. JavaScript strings are embedded as `List Char` so that every
definition evaluates inside the kernel; each definition's doc comment names
the source location it is translated from.
-/

set_option linter.unusedVariables false

namespace TaskManager

/-- JavaScript strings, embedded as lists of characters. -/
abbrev JStr := List Char

/-- `String.prototype.toLowerCase` (ASCII case mapping, as `Char.toLower`). -/
def strLower (s : JStr) : JStr := s.map Char.toLower

/-- `String.prototype.trim`: drop whitespace from both ends. -/
def strTrim (s : JStr) : JStr :=
  ((s.dropWhile Char.isWhitespace).reverse.dropWhile Char.isWhitespace).reverse

/-- `s.startsWith(p)` for JavaScript strings. -/
def strStarts : JStr → JStr → Bool
  | _, [] => true
  | [], _ :: _ => false
  | c :: s, d :: p => c == d && strStarts s p

/-- `String.prototype.split` with a one-character separator (the routes only
split on `';'` and `'='`). -/
def splitOnChar (sep : Char) : JStr → List JStr
  | [] => [[]]
  | c :: rest =>
    let r := splitOnChar sep rest
    if c == sep then [] :: r
    else
      match r with
      | [] => [[c]]
      | g :: gs => (c :: g) :: gs

/-! ## Task model (src/unnamed/part_000) -/

/-- Task status enum, part_000 lines 4-8. -/
inductive TaskStatus
  | pending
  | in_progress
  | completed
deriving DecidableEq

/-- Task priority enum, part_000 lines 10-15. -/
inductive TaskPriority
  | low
  | medium
  | high
  | urgent
deriving DecidableEq

/-- Task category enum, part_000 lines 17-24. -/
inductive TaskCategory
  | work
  | personal
  | health
  | finance
  | learning
  | other
deriving DecidableEq

/-- A stored task document (part_000 lines 27-94).  Dates are Nats
(milliseconds since epoch); `completedAt` defaults to `none` (schema default
`null`), and `createdAt` is the mongoose timestamp. -/
structure Task where
  id : JStr
  title : JStr
  description : Option JStr := none
  status : TaskStatus := TaskStatus.pending
  priority : TaskPriority := TaskPriority.medium
  category : TaskCategory := TaskCategory.other
  dueDate : Option Nat := none
  completedAt : Option Nat := none
  userId : JStr
  createdAt : Nat := 0
deriving DecidableEq

/-- The `TaskSchema.pre('save')` middleware (part_000 lines 103-112): when the
status path was modified, a freshly-completed task gets `completedAt := now`
(kept unchanged if already set), and a task whose status is not `completed`
gets `completedAt` cleared.  This is *document* middleware: Mongoose runs it
on `save()` only, not on `findOneAndUpdate`. -/
def preSaveHook (statusModified : Bool) (now : Nat) (t : Task) : Task :=
  if statusModified then
    if t.status = TaskStatus.completed ∧ t.completedAt = none then
      { t with completedAt := some now }
    else if t.status ≠ TaskStatus.completed then
      { t with completedAt := none }
    else t
  else t

/-- The invariant the spec states for every stored task: status is
`completed` exactly when `completedAt` is set. -/
def completedAtInvariant (t : Task) : Prop :=
  t.status = TaskStatus.completed ↔ t.completedAt ≠ none

/-! ## Update payload and store operations -/

/-- The output of `UpdateTaskSchema.safeParse` (src/unnamed/part_005 lines
61-65): every field optional; an absent field is absent from the parsed
object and therefore untouched by the `$set`-style spread in PATCH.  There is
no `completedAt` field. -/
structure UpdateData where
  title : Option JStr := none
  description : Option JStr := none
  status : Option TaskStatus := none
  priority : Option TaskPriority := none
  category : Option TaskCategory := none
  dueDate : Option Nat := none
deriving DecidableEq

/-- The effect of `findOneAndUpdate(_, { ...updateData }, ...)` on the matched
document (src/app/api/tasks/[id]/route.ts lines 168-172): each present field
is set, absent fields are untouched.  `runValidators` only reruns validators;
no document middleware runs, so `completedAt` is never touched here. -/
def applyUpdate (u : UpdateData) (t : Task) : Task :=
  { t with
    title := u.title.getD t.title
    description := match u.description with
      | some d => some d
      | none => t.description
    status := u.status.getD t.status
    priority := u.priority.getD t.priority
    category := u.category.getD t.category
    dueDate := match u.dueDate with
      | some d => some d
      | none => t.dueDate }

/-- The one-predicate ownership filter `{ _id: id, userId }` used by all three
by-id handlers (src/app/api/tasks/[id]/route.ts lines 72, 169, 257). -/
def taskMatches (t : Task) (id uid : JStr) : Bool :=
  t.id == id && t.userId == uid

/-- `Task.findOne({ _id: id, userId })` over a store embedded as a list. -/
def findOne (store : List Task) (id uid : JStr) : Option Task :=
  store.find? (fun t => taskMatches t id uid)

/-- Replace the first task matched by `p` with `t'`. -/
def replaceFirst (p : Task → Bool) (t' : Task) : List Task → List Task
  | [] => []
  | t :: r => if p t then t' :: r else t :: replaceFirst p t' r

/-- Remove the first task matched by `p`. -/
def removeFirst (p : Task → Bool) : List Task → List Task
  | [] => []
  | t :: r => if p t then r else t :: removeFirst p r

/-- `Task.findOneAndUpdate({ _id: id, userId }, { ...u }, { new: true })`:
the returned document (the updated one, because of `new: true`) and the store
afterwards. -/
def findOneAndUpdate (store : List Task) (id uid : JStr) (u : UpdateData) :
    Option Task × List Task :=
  match findOne store id uid with
  | none => (none, store)
  | some t =>
    let t' := applyUpdate u t
    (some t', replaceFirst (fun s => taskMatches s id uid) t' store)

/-- `Task.findOneAndDelete({ _id: id, userId })`. -/
def findOneAndDelete (store : List Task) (id uid : JStr) :
    Option Task × List Task :=
  match findOne store id uid with
  | none => (none, store)
  | some t => (some t, removeFirst (fun s => taskMatches s id uid) store)

/-! ## JWT model

The `jsonwebtoken` library is embedded symbolically: a signed token is its
payload plus the signing secret (standing for the HMAC signature), and
verification checks the secret and the expiry, exactly the two ways
`jwt.verify` can reject a structurally well-formed token; `malformed` stands
for a token that does not parse at all. -/

/-- The decoded payload the routes read (`JWTPayload` interface,
src/app/api/tasks/route.ts lines 9-14). -/
structure JWTPayload where
  userId : JStr
  email : JStr
  iat : Nat
  exp : Nat
deriving DecidableEq

/-- The three ways `jwt.verify` fails. -/
inductive VerifyError
  | malformed
  | signatureInvalid
  | expired
deriving DecidableEq

/-- Outcome of `jwt.verify`. -/
inductive VerifyResult
  | ok (payload : JWTPayload)
  | err (e : VerifyError)
deriving DecidableEq

/-- `expiresIn: '7d'` (src/unnamed/part_001 line 462), in seconds as
`jsonwebtoken` counts them. -/
def sevenDaysSec : Nat := 7 * 24 * 60 * 60

/-- A signed token: payload plus the secret it was signed with. -/
structure SignedToken where
  payload : JWTPayload
  sig : JStr
deriving DecidableEq

/-- `jwt.sign({ userId, email }, secret, { expiresIn: '7d' })` at clock `now`
(src/unnamed/part_001 lines 455-464): `iat := now`, `exp := now + 7 days`. -/
def jwtSign (userId email secret : JStr) (now : Nat) : SignedToken :=
  ⟨⟨userId, email, now, now + sevenDaysSec⟩, secret⟩

/-- `jwt.verify(token, secret)` at clock `now`: rejects a wrong signature,
then rejects an expired token (`jsonwebtoken` fails once the clock reaches
`exp`), otherwise yields the payload. -/
def jwtVerify (tok : SignedToken) (secret : JStr) (now : Nat) : VerifyResult :=
  if tok.sig ≠ secret then VerifyResult.err VerifyError.signatureInvalid
  else if tok.payload.exp ≤ now then VerifyResult.err VerifyError.expired
  else VerifyResult.ok tok.payload

/-- `error instanceof jwt.JsonWebTokenError`: in `jsonwebtoken` every
verification failure is a `JsonWebTokenError` — malformed tokens and bad
signatures directly, and `TokenExpiredError` is declared as a subclass of
`JsonWebTokenError` — so the check is true for all three causes. -/
def isJsonWebTokenError (e : VerifyError) : Bool := true

/-- `error instanceof jwt.TokenExpiredError`. -/
def isTokenExpiredError : VerifyError → Bool
  | VerifyError.expired => true
  | _ => false

/-! ## Session extractor (src/app/api/tasks/route.ts lines 17-45) -/

/-- The cookie branch of `getUserFromToken` (route.ts lines 27-33): split the
cookie header on `';'`, find the first cookie whose trimmed form starts with
`auth-token=`, and take `split('=')[1]` of the untrimmed cookie. -/
def cookieLookup (cookieHeader : Option JStr) : Option JStr :=
  match cookieHeader with
  | none => none
  | some ch =>
    match (splitOnChar ';' ch).find?
        (fun c => strStarts (strTrim c) ("auth-token=".toList)) with
    | none => none
    | some c => (splitOnChar '=' c).get? 1

/-- Token location order (route.ts lines 25-33): a `Bearer `-shaped
Authorization header wins; otherwise the `auth-token` cookie is consulted. -/
def extractToken (authHeader cookieHeader : Option JStr) : Option JStr :=
  match authHeader with
  | some h =>
    if strStarts h ("Bearer ".toList) then some (h.drop 7)
    else cookieLookup cookieHeader
  | none => cookieLookup cookieHeader

/-- `getUserFromToken` (route.ts lines 17-45), with `jwt.verify` on the raw
token string abstracted as `verifyStr`.  A missing or empty token, a missing
`NEXTAUTH_SECRET`, and every thrown verification error all yield `none`
(the `catch` block returns `null`). -/
def getUserFromToken (verifyStr : JStr → JStr → VerifyResult)
    (secret : Option JStr) (authHeader cookieHeader : Option JStr) :
    Option JStr :=
  match extractToken authHeader cookieHeader with
  | none => none
  | some tok =>
    if tok = [] then none
    else
      match secret with
      | none => none
      | some s =>
        match verifyStr tok s with
        | VerifyResult.ok payload => some payload.userId
        | VerifyResult.err _ => none

/-! ## Listing and filtering (src/app/api/tasks/route.ts GET) -/

/-- The output of `TaskQuerySchema.safeParse` (src/unnamed/part_005 lines
72-76) on a query that passed enum validation: each filter optional (an empty
query-string value was already turned into `undefined` by `|| undefined`). -/
structure TaskQuery where
  status : Option TaskStatus := none
  priority : Option TaskPriority := none
  category : Option TaskCategory := none
deriving DecidableEq

/-- The mongo filter built at route.ts lines 92-98: always `{ userId }`, and
each supplied filter added as an equality predicate (absent filters add no
key, so they impose no constraint). -/
def matchesFilter (uid : JStr) (q : TaskQuery) (t : Task) : Bool :=
  decide (t.userId = uid)
  && (match q.status with
      | none => true
      | some s => decide (t.status = s))
  && (match q.priority with
      | none => true
      | some p => decide (t.priority = p))
  && (match q.category with
      | none => true
      | some c => decide (t.category = c))

/-- `.sort({ createdAt: -1 })`: newest first. -/
def newestFirst (a b : Task) : Prop := b.createdAt ≤ a.createdAt

instance : DecidableRel newestFirst := fun a b => Nat.decLe _ _

instance : IsTotal Task newestFirst :=
  ⟨fun a b => by unfold newestFirst; omega⟩

instance : IsTrans Task newestFirst :=
  ⟨fun a b c h1 h2 => by unfold newestFirst at *; omega⟩

/-- `Task.find(filter).sort({ createdAt: -1 })` (route.ts line 101). -/
def listTasks (store : List Task) (uid : JStr) (q : TaskQuery) : List Task :=
  List.insertionSort newestFirst (store.filter (matchesFilter uid q))

/-- Response envelope of the list endpoint. -/
structure ListResp where
  status : Nat
  success : Bool
  error : Option JStr := none
  message : Option JStr := none
  data : Option (List Task) := none
deriving DecidableEq

/-- The 200 branch of GET /api/tasks (route.ts lines 105-109). -/
def tasksFetched (store : List Task) (uid : JStr) (q : TaskQuery) : ListResp :=
  { status := 200, success := true,
    message := some ("Tasks fetched successfully".toList),
    data := some (listTasks store uid q) }

/-- GET /api/tasks (route.ts lines 48-122) for a request whose query already
passed `TaskQuerySchema`: resolve the caller, 401 if that fails, otherwise the
filtered, sorted list. -/
def getTasksRoute (verifyStr : JStr → JStr → VerifyResult)
    (secret : Option JStr) (authHeader cookieHeader : Option JStr)
    (store : List Task) (q : TaskQuery) : ListResp :=
  match getUserFromToken verifyStr secret authHeader cookieHeader with
  | none =>
    { status := 401, success := false,
      error := some ("Authentication required".toList) }
  | some uid => tasksFetched store uid q

/-! ## By-id task handlers (src/app/api/tasks/[id]/route.ts) -/

/-- Response envelope of the by-id endpoints. -/
structure TaskResp where
  status : Nat
  success : Bool
  error : Option JStr := none
  message : Option JStr := none
  data : Option Task := none
deriving DecidableEq

/-- The shared 401 body (route.ts lines 59-65 and peers). -/
def authRequired : TaskResp :=
  { status := 401, success := false,
    error := some ("Authentication required".toList) }

/-- The shared 404 body (route.ts lines 76-82, 176-182, 261-267): the same
response whether the task does not exist or belongs to another user. -/
def taskNotFound : TaskResp :=
  { status := 404, success := false, error := some ("Task not found".toList) }

/-- The 400 body when `TaskIdSchema` rejects the id (route.ts lines 118-124). -/
def invalidTaskId : TaskResp :=
  { status := 400, success := false, error := some ("Invalid task ID".toList) }

/-- GET /api/tasks/[id] (route.ts lines 47-104), after the caller was
resolved to `userId` (`none` = unauthenticated).  The store is queried with
`findOne({ _id: id, userId })` in one predicate. -/
def getTaskByIdHandler (store : List Task) (userId : Option JStr)
    (id : JStr) : TaskResp :=
  match userId with
  | none => authRequired
  | some uid =>
    match findOne store id uid with
    | none => taskNotFound
    | some t =>
      { status := 200, success := true,
        message := some ("Task fetched successfully".toList), data := some t }

/-- PATCH /api/tasks/[id] (route.ts lines 107-216) for a body that already
passed `UpdateTaskSchema`: id validated first (`TaskIdSchema`: nonempty),
then auth, then `findOneAndUpdate({ _id: id, userId }, ...)`. -/
def patchTaskHandler (store : List Task) (userId : Option JStr) (id : JStr)
    (u : UpdateData) : TaskResp × List Task :=
  if id = [] then (invalidTaskId, store)
  else
    match userId with
    | none => (authRequired, store)
    | some uid =>
      match findOneAndUpdate store id uid u with
      | (none, s) => (taskNotFound, s)
      | (some t, s) =>
        ({ status := 200, success := true,
           message := some ("Task updated successfully".toList),
           data := some t }, s)

/-- DELETE /api/tasks/[id] (route.ts lines 219-289): id validated, then auth,
then `findOneAndDelete({ _id: id, userId })`. -/
def deleteTaskHandler (store : List Task) (userId : Option JStr)
    (id : JStr) : TaskResp × List Task :=
  if id = [] then (invalidTaskId, store)
  else
    match userId with
    | none => (authRequired, store)
    | some uid =>
      match findOneAndDelete store id uid with
      | (none, s) => (taskNotFound, s)
      | (some t, s) =>
        ({ status := 200, success := true,
           message := some ("Task deleted successfully".toList),
           data := some t }, s)

/-! ## Users, bcrypt, login, registration (src/models/User.ts,
src/unnamed/part_001, src/unnamed/part_002) -/

/-- A stored user document (src/models/User.ts lines 6-54): email is stored
lowercased, the password field holds the bcrypt digest. -/
structure User where
  id : JStr
  name : JStr
  email : JStr
  passwordHash : JStr
  avatar : Option JStr := none
  createdAt : Nat := 0
deriving DecidableEq

/-- bcrypt with cost 12 (User.ts lines 60-80), embedded as an injective
tagging of the plaintext; `bcryptCompare` then matches `bcrypt.compare`:
true exactly when the digest was produced from this plaintext. -/
def bcryptHash (password : JStr) : JStr := "bcrypt12$".toList ++ password

/-- `bcrypt.compare(password, digest)` under the model above. -/
def bcryptCompare (password digest : JStr) : Bool :=
  digest == bcryptHash password

/-- The password-free user shape every auth response returns
(part_001 lines 469-475 and 592-598). -/
structure UserView where
  id : JStr
  name : JStr
  email : JStr
  avatar : Option JStr
  createdAt : Nat
deriving DecidableEq

/-- Project a stored user to the response shape. -/
def userView (u : User) : UserView :=
  ⟨u.id, u.name, u.email, u.avatar, u.createdAt⟩

/-- Response envelope of POST /api/auth/login. -/
structure LoginResp where
  status : Nat
  success : Bool
  error : Option JStr := none
  message : Option JStr := none
  user : Option UserView := none
  token : Option SignedToken := none
deriving DecidableEq

/-- POST /api/auth/login (src/unnamed/part_001 lines 392-509): 400 when a
field is falsy (empty), lookup by `{ email: email.toLowerCase() }`, the same
401 body for an unknown email and for a failed password comparison, a thrown
missing-secret error caught as the generic 500, and on success 200 with the
user view and a fresh 7-day token. -/
def loginRoute (store : List User) (secret : Option JStr) (now : Nat)
    (email password : JStr) : LoginResp :=
  if email = [] ∨ password = [] then
    { status := 400, success := false,
      error := some ("Email and password are required".toList) }
  else
    match store.find? (fun u => u.email == strLower email) with
    | none =>
      { status := 401, success := false,
        error := some ("Invalid email or password".toList) }
    | some u =>
      if bcryptCompare password u.passwordHash then
        match secret with
        | none =>
          { status := 500, success := false,
            error := some ("Login failed. Please try again.".toList) }
        | some s =>
          { status := 200, success := true,
            message := some ("Login successful".toList),
            user := some (userView u),
            token := some (jwtSign u.id u.email s now) }
      else
        { status := 401, success := false,
          error := some ("Invalid email or password".toList) }

/-- The raw registration body (part_002 lines 15-21). -/
structure RegisterBody where
  name : JStr
  email : JStr
  password : JStr
  confirmPassword : JStr
deriving DecidableEq

/-- The `.email()` format check of `RegisterSchema` (src/unnamed/part_005
lines 10-13), embedded by the properties used here: a Zod-valid email is
nonempty, contains `'@'`, and carries no surrounding whitespace. -/
def emailFormatOk (e : JStr) : Bool :=
  !e.isEmpty && e.contains '@' && strTrim e == e

/-- The email transform of `RegisterSchema`: `.toLowerCase().trim()`, in that
order (part_005 lines 10-13). -/
def normalizeEmail (e : JStr) : JStr := strTrim (strLower e)

/-- `RegisterSchema.safeParse` success (part_005 lines 5-21): the length
checks run on the raw strings (the `.trim()` transform follows them), plus
the email format check and the password/confirm refinement. -/
def registerValidate (b : RegisterBody) : Bool :=
  decide (2 ≤ b.name.length) && decide (b.name.length ≤ 50)
  && emailFormatOk b.email
  && decide (6 ≤ b.password.length) && decide (b.password.length ≤ 100)
  && b.password == b.confirmPassword

/-- Response envelope of POST /api/auth/register. -/
structure RegisterResp where
  status : Nat
  success : Bool
  error : Option JStr := none
  message : Option JStr := none
  user : Option UserView := none
deriving DecidableEq

/-- The document `new User({ name, email, password }).save()` stores
(part_002 lines 56-62): name trimmed by the schema transform, email
normalized, password hashed by the `pre('save')` hook. -/
def registeredUser (b : RegisterBody) (newId : JStr) (now : Nat) : User :=
  { id := newId, name := strTrim b.name, email := normalizeEmail b.email,
    passwordHash := bcryptHash b.password, avatar := none, createdAt := now }

/-- POST /api/auth/register (src/unnamed/part_002 lines 7-114): validate,
reject a duplicate email with 400, otherwise append the new user. -/
def registerRoute (store : List User) (b : RegisterBody) (newId : JStr)
    (now : Nat) : RegisterResp × List User :=
  if registerValidate b then
    match store.find? (fun u => u.email == normalizeEmail b.email) with
    | some _ =>
      ({ status := 400, success := false,
         error := some ("User with this email already exists".toList) }, store)
    | none =>
      let u := registeredUser b newId now
      ({ status := 200, success := true,
         message := some ("User registered successfully".toList),
         user := some (userView u) }, store ++ [u])
  else
    ({ status := 400, success := false,
       error := some ("Validation failed".toList) }, store)

/-- Response envelope of GET /api/auth/me. -/
structure MeResp where
  status : Nat
  success : Bool
  error : Option JStr := none
  user : Option UserView := none
deriving DecidableEq

/-- The `catch` block of GET /api/auth/me (src/unnamed/part_001 lines
607-630) applied to a `jwt.verify` failure: the `instanceof
JsonWebTokenError` branch is checked first, and since `TokenExpiredError` is
a subclass of `JsonWebTokenError`, it captures all three causes; the
expired-specific branch below it is unreachable. -/
def meCatchHandler (e : VerifyError) : MeResp :=
  if isJsonWebTokenError e then
    { status := 401, success := false,
      error := some ("Invalid authentication token".toList) }
  else if isTokenExpiredError e then
    { status := 401, success := false,
      error := some ("Authentication token expired".toList) }
  else
    { status := 500, success := false,
      error := some ("Failed to get current user".toList) }

/-! ## Task creation (src/app/api/tasks/route.ts POST) -/

/-- A request body for POST /api/tasks after the fields `CreateTaskSchema`
knows about were validated.  The raw JSON may carry a `status` member, but
`CreateTaskSchema` (src/unnamed/part_005 lines 33-59) has no `status` key, so
the parse strips it and the handler never reads it. -/
structure CreateBody where
  title : JStr
  description : Option JStr := none
  status : Option TaskStatus := none
  priority : TaskPriority
  category : TaskCategory
  dueDate : Option Nat := none
deriving DecidableEq

/-- The task POST /api/tasks stores (route.ts lines 168-183): only
`{ title, description, priority, category, dueDate }` are destructured from
the validated data — never `status` — so the schema default `pending`
applies; `description || undefined` maps an empty description to absent;
then `save()` runs the pre-save hook (a no-op here since the fresh status is
`pending` and `completedAt` defaults to null). -/
def postCreateTask (userId : JStr) (body : CreateBody) (newId : JStr)
    (now : Nat) : Task :=
  let t : Task :=
    { id := newId
      title := body.title
      description := match body.description with
        | some d => if d = [] then none else some d
        | none => none
      status := TaskStatus.pending
      priority := body.priority
      category := body.category
      dueDate := body.dueDate
      completedAt := none
      userId := userId
      createdAt := now }
  preSaveHook true now t

/-! ## Theorems -/

/-- The pending task PATCHed in the C1 failing input. -/
def taskC1 : Task :=
  { id := "t1".toList, title := "write report".toList, userId := "u1".toList }

/-- The PATCH body of the C1 failing input: it only sets `status: completed`. -/
def updC1 : UpdateData := { status := some TaskStatus.completed }

/-- C1: the claim says the `completedAt` derivation is enforced on every
write, but PATCH /api/tasks/:id writes through `findOneAndUpdate`, which
runs no `pre('save')` document middleware — the only place the derivation
lives.  At the failing input (a pending task with `completedAt` unset,
PATCHed to `status: completed`) the stored task has status `completed` and
`completedAt` still unset, violating the invariant, while the save hook at
the same transition would have stamped `completedAt`. -/
theorem patch_completed_bypasses_hook :
    (patchTaskHandler [taskC1] (some ("u1".toList)) ("t1".toList) updC1).1
      = { status := 200, success := true,
          message := some ("Task updated successfully".toList),
          data := some (applyUpdate updC1 taskC1) }
    ∧ (applyUpdate updC1 taskC1).status = TaskStatus.completed
    ∧ (applyUpdate updC1 taskC1).completedAt = none
    ∧ ¬ completedAtInvariant (applyUpdate updC1 taskC1)
    ∧ (preSaveHook true 5 { taskC1 with status := TaskStatus.completed }).completedAt
        = some 5 := by
  unfold completedAtInvariant
  refine ⟨by decide, by decide, by decide, by decide, by decide⟩

/-- The C5 counterexample body: a create request that explicitly asks for
`status: completed` (with otherwise valid fields). -/
def bodyC5 : CreateBody :=
  { title := "Buy milk".toList, status := some TaskStatus.completed,
    priority := TaskPriority.low, category := TaskCategory.personal }

/-- C5 counterexample: a POST /api/tasks body that specifies
`status: completed` still produces a task whose status is `pending` —
`CreateTaskSchema` has no status field and the handler never reads one, so
the claim's "unless a status is specified in the request body" is false. -/
theorem create_ignores_supplied_status :
    bodyC5.status = some TaskStatus.completed
    ∧ (postCreateTask ("u1".toList) bodyC5 ("t1".toList) 0).status
        = TaskStatus.pending
    ∧ TaskStatus.pending ≠ TaskStatus.completed := by
  refine ⟨rfl, by decide, by decide⟩

/-- C5 amended: every task created through POST /api/tasks has status
`pending`; a status supplied in the request body is stripped by
`CreateTaskSchema` and ignored. -/
theorem create_status_always_pending (userId : JStr) (body : CreateBody)
    (newId : JStr) (now : Nat) :
    (postCreateTask userId body newId now).status = TaskStatus.pending := by
  simp [postCreateTask, preSaveHook]

/-- C2: GET, PATCH and DELETE /api/tasks/:id all query the store with the
single predicate `{ _id: id, userId: caller }` (`taskMatches`), so whenever
no task with the requested id is owned by the caller — whether the task does
not exist at all or is owned by another user — each handler returns the one
`taskNotFound` response (404, same body).  In particular the two scenarios
are indistinguishable.  The id is assumed nonempty, which is exactly what
`TaskIdSchema` accepts (and Mongo ids are never empty). -/
theorem owner_scoped_404 (store : List Task) (A id : JStr) (u : UpdateData)
    (hid : id ≠ [])
    (hno : ∀ t ∈ store, t.id = id → t.userId ≠ A) :
    getTaskByIdHandler store (some A) id = taskNotFound
    ∧ (patchTaskHandler store (some A) id u).1 = taskNotFound
    ∧ (deleteTaskHandler store (some A) id).1 = taskNotFound := by
  have hfind : findOne store id A = none := by
    rw [findOne, List.find?_eq_none]
    intro t ht
    simp only [taskMatches, Bool.and_eq_true, beq_iff_eq, not_and]
    intro h1 h2
    exact hno t ht h1 h2
  refine ⟨?_, ?_, ?_⟩
  · simp [getTaskByIdHandler, hfind]
  · simp [patchTaskHandler, hid, findOneAndUpdate, hfind]
  · simp [deleteTaskHandler, hid, findOneAndDelete, hfind]

/-- The store of the C2 witness: one task, owned by `bob`. -/
def storeC2 : List Task :=
  [{ id := "t1".toList, title := "bobs task".toList, userId := "bob".toList }]

/-- C2 witness: `alice` asking for `bob`'s task gets the same 404 from all
three by-id handlers. -/
theorem owner_scoped_404_witness :
    getTaskByIdHandler storeC2 (some ("alice".toList)) ("t1".toList) = taskNotFound
    ∧ (patchTaskHandler storeC2 (some ("alice".toList)) ("t1".toList) {}).1
        = taskNotFound
    ∧ (deleteTaskHandler storeC2 (some ("alice".toList)) ("t1".toList)).1
        = taskNotFound :=
  owner_scoped_404 storeC2 ("alice".toList) ("t1".toList) {} (by decide) (by decide)

/-- C3: every `jwt.verify` failure — malformed token, invalid signature,
expired token — maps to a 401 at the API boundary, and the response is the
same for all three causes: the task routes return the one
"Authentication required" body (the catch in `getUserFromToken` collapses
every error to `null`), and /api/auth/me returns the one
"Invalid authentication token" body, because its `instanceof
JsonWebTokenError` branch runs first and `TokenExpiredError` is a subclass
of `JsonWebTokenError`. -/
theorem verify_errors_uniform_401 (e e' : VerifyError) (s : JStr)
    (ah ch : Option JStr) (store : List Task) (q : TaskQuery) :
    meCatchHandler e
      = { status := 401, success := false,
          error := some ("Invalid authentication token".toList) }
    ∧ meCatchHandler e = meCatchHandler e'
    ∧ getTasksRoute (fun _ _ => VerifyResult.err e) (some s) ah ch store q
        = { status := 401, success := false,
            error := some ("Authentication required".toList) }
    ∧ getTasksRoute (fun _ _ => VerifyResult.err e) (some s) ah ch store q
        = getTasksRoute (fun _ _ => VerifyResult.err e') (some s) ah ch store q := by
  have h401 : ∀ e0 : VerifyError,
      getTasksRoute (fun _ _ => VerifyResult.err e0) (some s) ah ch store q
        = { status := 401, success := false,
            error := some ("Authentication required".toList) } := by
    intro e0
    unfold getTasksRoute getUserFromToken
    cases extractToken ah ch with
    | none => rfl
    | some tok =>
      by_cases htok : tok = [] <;> simp [htok]
  exact ⟨rfl, rfl, h401 e, (h401 e).trans (h401 e').symm⟩

/-- C4: POST /auth/login answers an unknown email and a known email with a
wrong password with the very same response: status 401, body
"Invalid email or password". -/
theorem login_401_indistinguishable (store : List User) (secret : Option JStr)
    (now : Nat) (e1 p1 e2 p2 : JStr)
    (he1 : e1 ≠ []) (hp1 : p1 ≠ []) (he2 : e2 ≠ []) (hp2 : p2 ≠ [])
    (hunknown : ∀ u ∈ store, u.email ≠ strLower e1)
    (hwrong : ∀ u ∈ store, u.email = strLower e2 →
        bcryptCompare p2 u.passwordHash = false) :
    loginRoute store secret now e1 p1
      = { status := 401, success := false,
          error := some ("Invalid email or password".toList) }
    ∧ loginRoute store secret now e2 p2
      = loginRoute store secret now e1 p1 := by
  have hfind1 : store.find? (fun u => u.email == strLower e1) = none := by
    rw [List.find?_eq_none]
    intro u hu
    simp only [beq_iff_eq]
    exact hunknown u hu
  have h1 : loginRoute store secret now e1 p1
      = { status := 401, success := false,
          error := some ("Invalid email or password".toList) } := by
    unfold loginRoute
    simp [he1, hp1, hfind1]
  refine ⟨h1, ?_⟩
  rw [h1]
  unfold loginRoute
  rw [if_neg (by simp [he2, hp2])]
  cases hf : store.find? (fun u => u.email == strLower e2) with
  | none => rfl
  | some u =>
    have hu_mem := List.mem_of_find?_eq_some hf
    have hu_p := List.find?_some hf
    simp only [beq_iff_eq] at hu_p
    simp [hwrong u hu_mem hu_p]

/-- The store of the C4 witness: one user, `bob`, with password `pw123456`. -/
def usersC4 : List User :=
  [{ id := "u1".toList, name := "Bob".toList, email := "bob@x.com".toList,
     passwordHash := bcryptHash ("pw123456".toList) }]

/-- C4 witness: the unknown email `carol@x.com` and `bob@x.com` with a wrong
password draw the identical 401 response. -/
theorem login_401_indistinguishable_witness :
    loginRoute usersC4 (some ("tok-secret".toList)) 0 ("carol@x.com".toList)
        ("whatever".toList)
      = { status := 401, success := false,
          error := some ("Invalid email or password".toList) }
    ∧ loginRoute usersC4 (some ("tok-secret".toList)) 0 ("bob@x.com".toList)
        ("wrongpass".toList)
      = loginRoute usersC4 (some ("tok-secret".toList)) 0 ("carol@x.com".toList)
        ("whatever".toList) :=
  login_401_indistinguishable usersC4 (some ("tok-secret".toList)) 0
    ("carol@x.com".toList) ("whatever".toList) ("bob@x.com".toList)
    ("wrongpass".toList) (by decide) (by decide) (by decide) (by decide)
    (by decide) (by decide)

/-- The mongo filter of GET /api/tasks, characterised field by field. -/
theorem matchesFilter_iff (uid : JStr) (q : TaskQuery) (t : Task) :
    matchesFilter uid q t = true ↔
      t.userId = uid
      ∧ (∀ s, q.status = some s → t.status = s)
      ∧ (∀ p, q.priority = some p → t.priority = p)
      ∧ (∀ c, q.category = some c → t.category = c) := by
  rcases q with ⟨qs, qp, qc⟩
  cases qs <;> cases qp <;> cases qc <;> simp [matchesFilter, and_assoc]

/-- C6: for an authenticated caller whose filters passed enum validation,
GET /api/tasks answers 200 with exactly the tasks owned by the caller that
satisfy every supplied filter as an equality predicate combined with AND
(absent filters constrain nothing), ordered by creation timestamp newest
first. -/
theorem list_tasks_spec (store : List Task) (uid : JStr) (q : TaskQuery)
    (t : Task) :
    (tasksFetched store uid q).status = 200
    ∧ (tasksFetched store uid q).data = some (listTasks store uid q)
    ∧ (t ∈ listTasks store uid q ↔
        t ∈ store ∧ t.userId = uid
        ∧ (∀ s, q.status = some s → t.status = s)
        ∧ (∀ p, q.priority = some p → t.priority = p)
        ∧ (∀ c, q.category = some c → t.category = c))
    ∧ List.Sorted newestFirst (listTasks store uid q) := by
  refine ⟨rfl, rfl, ?_, List.sorted_insertionSort newestFirst _⟩
  rw [listTasks, List.mem_insertionSort, List.mem_filter, and_congr_right_iff]
  intro _
  exact matchesFilter_iff uid q t

/-- C7: the session extractor takes the token from a `Bearer `-shaped
Authorization header first; only when no such header is present does it
consult the `auth-token` cookie; with neither present the caller resolves to
no identity and GET /api/tasks answers 401 "Authentication required" — an
unauthenticated response, not an internal error.  Two closed conjuncts
evaluate the extractor on concrete headers: the header wins over a present
cookie, and the cookie is parsed out of a multi-cookie header. -/
theorem session_extractor_spec (verifyStr : JStr → JStr → VerifyResult)
    (secret : Option JStr) (h : JStr) (ch : Option JStr)
    (store : List Task) (q : TaskQuery) :
    (strStarts h ("Bearer ".toList) = true →
      extractToken (some h) ch = some (h.drop 7))
    ∧ (strStarts h ("Bearer ".toList) = false →
      extractToken (some h) ch = cookieLookup ch)
    ∧ extractToken none ch = cookieLookup ch
    ∧ cookieLookup none = none
    ∧ extractToken (some ("Bearer tok123".toList))
        (some ("auth-token=cookietok".toList)) = some ("tok123".toList)
    ∧ extractToken (some ("Basic xyz".toList))
        (some ("sid=1; auth-token=cookietok".toList))
        = some ("cookietok".toList)
    ∧ getTasksRoute verifyStr secret none none store q
        = { status := 401, success := false,
            error := some ("Authentication required".toList) } := by
  refine ⟨?_, ?_, rfl, rfl, by decide, by decide, rfl⟩
  · intro hb
    simp only [extractToken]
    rw [if_pos hb]
  · intro hb
    simp only [extractToken]
    rw [if_neg (by rw [hb]; decide)]

/-- C8: a token minted as login mints it (the caller's id and email, the
server secret, a 7-day lifetime), verified with the same secret at the time
of issue, resolves to exactly that id and email; verified at or after the
7-day expiry it fails with the expiry error. -/
theorem token_round_trip (uid em secret : JStr) (now t : Nat) :
    jwtVerify (jwtSign uid em secret now) secret now
      = VerifyResult.ok ⟨uid, em, now, now + sevenDaysSec⟩
    ∧ (now + sevenDaysSec ≤ t →
        jwtVerify (jwtSign uid em secret now) secret t
          = VerifyResult.err VerifyError.expired) := by
  constructor
  · have h1 : ¬ (now + sevenDaysSec ≤ now) := by unfold sevenDaysSec; omega
    simp [jwtVerify, jwtSign, h1]
  · intro ht
    simp [jwtVerify, jwtSign, ht]

/-- The store of the C9 login conjunct: `eve` with the correct password. -/
def usersC9 : List User :=
  [{ id := "u9".toList, name := "Eve".toList, email := "eve@x.com".toList,
     passwordHash := bcryptHash ("pw123456".toList) }]

/-- C9: with NEXTAUTH_SECRET unconfigured nothing aborts — the failure is
per-request.  Every request to GET /api/tasks, whatever token it carries, is
answered 401 "Authentication required", exactly as if the caller merely
lacked credentials (`getUserFromToken` returns null when the secret is
unset); and a login with fully correct credentials is answered with the
per-request 500 (the thrown missing-secret error is caught by the handler).
This refutes both halves of the claim: the process does not fail fast, and
requests are answered as if the caller lacked valid credentials. -/
theorem secret_unconfigured_per_request
    (verifyStr : JStr → JStr → VerifyResult) (ah ch : Option JStr)
    (store : List Task) (q : TaskQuery) (now : Nat) :
    getTasksRoute verifyStr none ah ch store q
      = { status := 401, success := false,
          error := some ("Authentication required".toList) }
    ∧ loginRoute usersC9 none now ("eve@x.com".toList) ("pw123456".toList)
      = { status := 500, success := false,
          error := some ("Login failed. Please try again.".toList) } := by
  constructor
  · unfold getTasksRoute getUserFromToken
    cases extractToken ah ch with
    | none => rfl
    | some tok =>
      by_cases htok : tok = [] <;> simp [htok]
  · rfl

/-- C10: registration lowercases (and trims) the submitted email before
storing, login lowercases the submitted email before lookup, so a user
registered with email `e` can log in with any casing variant of `e` and the
correct password, resolving to the registered user.  `hclean` records that a
Zod-valid registered email has no surrounding whitespace, so the `.trim()`
transform is inert on it. -/
theorem email_case_insensitive_login (store : List User) (b : RegisterBody)
    (newId : JStr) (now : Nat) (s e2 : JStr)
    (hval : registerValidate b = true)
    (hdup : ∀ u ∈ store, u.email ≠ normalizeEmail b.email)
    (hlower : strLower e2 = strLower b.email)
    (hclean : strTrim (strLower b.email) = strLower b.email)
    (hne : e2 ≠ []) :
    (registerRoute store b newId now).2 = store ++ [registeredUser b newId now]
    ∧ (registeredUser b newId now).email = strLower b.email
    ∧ loginRoute (store ++ [registeredUser b newId now]) (some s) now e2
        b.password
      = { status := 200, success := true,
          message := some ("Login successful".toList),
          user := some (userView (registeredUser b newId now)),
          token := some (jwtSign newId (normalizeEmail b.email) s now) } := by
  have hpw : b.password ≠ [] := by
    simp only [registerValidate, Bool.and_eq_true, decide_eq_true_eq] at hval
    intro hcon
    rw [hcon] at hval
    simp at hval
  have hemail : (registeredUser b newId now).email = strLower b.email := by
    simp [registeredUser, normalizeEmail, hclean]
  have hfindDup :
      store.find? (fun u => u.email == normalizeEmail b.email) = none := by
    rw [List.find?_eq_none]
    intro u hu
    simp only [beq_iff_eq]
    exact hdup u hu
  refine ⟨?_, hemail, ?_⟩
  · unfold registerRoute
    simp [hval, hfindDup]
  · unfold loginRoute
    rw [if_neg (by simp [hne, hpw])]
    have hkey : strLower e2 = normalizeEmail b.email := by
      rw [hlower, normalizeEmail, hclean]
    have hfind2 :
        (store ++ [registeredUser b newId now]).find?
            (fun u => u.email == strLower e2)
          = some (registeredUser b newId now) := by
      rw [List.find?_append]
      have hleft :
          store.find? (fun u => u.email == strLower e2) = none := by
        rw [List.find?_eq_none]
        intro u hu
        simp only [beq_iff_eq, hkey]
        exact hdup u hu
      rw [hleft, Option.none_or]
      simp [List.find?, registeredUser, hkey, normalizeEmail]
    rw [hfind2]
    simp [bcryptCompare, registeredUser, userView, normalizeEmail]

/-- The registration body of the C10 witness. -/
def regC10 : RegisterBody :=
  { name := "Alice".toList, email := "Alice@Example.COM".toList,
    password := "secret1".toList, confirmPassword := "secret1".toList }

/-- C10 witness: after registering as `Alice@Example.COM`, logging in as
`alice@example.com` with the registered password succeeds. -/
theorem email_case_insensitive_login_witness :
    (loginRoute [registeredUser regC10 ("u1".toList) 0]
        (some ("topsecret".toList)) 0 ("alice@example.com".toList)
        regC10.password).status = 200 := by
  have h := email_case_insensitive_login [] regC10 ("u1".toList) 0
    ("topsecret".toList) ("alice@example.com".toList) (by decide) (by decide)
    (by decide) (by decide) (by decide)
  have h3 := h.2.2
  rw [List.nil_append] at h3
  rw [h3]

end TaskManager
